import Mathlib

/-!
Verification of the chatroom service in `app/routes/chatrooms.py`.

The four route handlers (`create_chatroom`, `get_messages`, `send_message`,
`get_user_chatrooms`) are embedded as pure functions threading an explicit
`Store` that models the three MongoDB collections (`chatrooms`, `messages`,
`sellers`).  Each handler returns the (possibly updated) store together with
an `Except Err` result: `Err.http code detail` models a raised
`HTTPException`, and `Err.invalidObjectId` models the unclassified
`bson.errors.InvalidId` raised by `ObjectId(chatroom_id)` on a malformed id
string.  MongoDB's `ObjectId` values are modelled as natural numbers;
`parseObjectId` accepts exactly the 24-hexadecimal-character strings, as the
BSON string constructor does, and `oidToString` renders an id the way
`str(object_id)` does.  `find_one` becomes `List.find?` (first match in
insertion order), `find(...).to_list(length=n)` becomes `filter` followed by
`take n`, and `insert_one` appends to the collection list.  The server clock
readings (`datetime.utcnow().isoformat()`) are passed in as explicit string
parameters, one per call site in the source.
-/

/-- The authenticated identity returned by `get_current_user`. -/
structure AuthUser where
  user_id : String
  username : String
  deriving DecidableEq

/-- A document of the `chatrooms` collection.  `id` models the MongoDB
`_id` assigned on insertion. -/
structure Chatroom where
  id : Nat
  user_id : String
  seller_id : String
  created_at : String
  deriving DecidableEq

/-- A document of the `messages` collection.  `chatroom_id` is stored as the
path-parameter string, exactly as the source writes it. -/
structure Msg where
  chatroom_id : String
  user_id : String
  username : String
  content : String
  timestamp : String
  deriving DecidableEq

/-- A document of the `sellers` collection; `name` and `image` may be absent,
which the source reads with `seller.get(..., default)`. -/
structure Seller where
  seller_id : String
  name : Option String
  image : Option String
  deriving DecidableEq

/-- The database state: the three collections used by the routes, plus the
counter from which MongoDB-style `_id` values are drawn on insertion. -/
structure Store where
  chatrooms : List Chatroom
  messages : List Msg
  sellers : List Seller
  nextId : Nat
  deriving DecidableEq

/-- Failure outcomes: `http` models a raised `HTTPException (status_code,
detail)`; `invalidObjectId` models the unclassified `bson.errors.InvalidId`
escaping from `ObjectId(chatroom_id)`. -/
inductive Err where
  | http (code : Nat) (detail : String)
  | invalidObjectId
  deriving DecidableEq

/-- The pydantic `Message` request body of `send_message`. -/
structure MessageBody where
  user_id : String
  username : String
  content : String
  timestamp : String
  deriving DecidableEq

/-- One element of the `get_messages` response list: the four literal fields
projected from a stored message. -/
structure MsgOut where
  user_id : String
  username : String
  content : String
  timestamp : String
  deriving DecidableEq

/-- The pydantic `ChatroomResponse` of `get_user_chatrooms`. -/
structure ChatroomResponse where
  chatroom_id : String
  seller_name : String
  seller_avatar : String
  deriving DecidableEq

/-- Hexadecimal-digit test used by the BSON `ObjectId` string constructor. -/
def isHexDigit (c : Char) : Bool :=
  ( '0' ≤ c && c ≤ '9') || ( 'a' ≤ c && c ≤ 'f') || ( 'A' ≤ c && c ≤ 'F')

/-- Numeric value of a hexadecimal digit. -/
def hexVal (c : Char) : Nat :=
  if c.toNat ≤ 57 then c.toNat - 48
  else if 97 ≤ c.toNat then c.toNat - 87
  else c.toNat - 55

/-- `ObjectId(s)` in BSON: succeeds exactly on 24-hexadecimal-character
strings, yielding the 12-byte id value; any other string raises `InvalidId`. -/
def parseObjectId (s : String) : Option Nat :=
  if s.length = 24 && s.data.all isHexDigit then
    some (s.data.foldl (fun acc c => acc * 16 + hexVal c) 0)
  else none

/-- Lowercase hexadecimal digit character for a value below 16. -/
def hexChar (n : Nat) : Char :=
  if n < 10 then Char.ofNat (48 + n) else Char.ofNat (87 + n)

/-- The last `k` hexadecimal digits of `n`, most significant first. -/
def toHexChars : Nat → Nat → List Char
  | 0, _ => []
  | k + 1, n => toHexChars k (n / 16) ++ [hexChar (n % 16)]

/-- `str(object_id)`: the 24-hexadecimal-character rendering of an id. -/
def oidToString (n : Nat) : String := String.mk (toHexChars 24 n)

/-- The hardcoded auto-reply content of `send_message`. -/
def cannedReply : String := "Thank you for your message. We will get back to you shortly."

/-- The membership filter of `get_messages`/`send_message`:
`find_one({"_id": oid, "$or": [{"user_id": uid}, {"seller_id": uid}]})`. -/
def memberQuery (oid : Nat) (uid : String) (c : Chatroom) : Bool :=
  c.id == oid && (c.user_id == uid || c.seller_id == uid)

/-- `POST /api/v1/chatrooms/{seller_id}`: create a chatroom between the
authenticated user and `seller_id`.  Returns the new chatroom id string on
success. -/
def create_chatroom (seller_id : String) (user : AuthUser) (now : String)
    (st : Store) : Store × Except Err String :=
  if user.user_id == seller_id then
    (st, .error (.http 400 "User cannot create a chatroom with themselves."))
  else
    match st.chatrooms.find? (fun c => c.user_id == user.user_id && c.seller_id == seller_id) with
    | some _ =>
        (st, .error (.http 400 "Chatroom already exists between this user and seller."))
    | none =>
        ({ st with
            chatrooms := st.chatrooms ++ [⟨st.nextId, user.user_id, seller_id, now⟩],
            nextId := st.nextId + 1 },
          .ok (oidToString st.nextId))

/-- Projection of a stored message to the four response fields. -/
def messageFields (m : Msg) : MsgOut :=
  ⟨m.user_id, m.username, m.content, m.timestamp⟩

/-- `GET /api/v1/chatrooms/{chatroom_id}/messages`: list up to 100 messages
of the chatroom after the membership check. -/
def get_messages (chatroom_id : String) (user : AuthUser)
    (st : Store) : Store × Except Err (List MsgOut) :=
  match parseObjectId chatroom_id with
  | none => (st, .error .invalidObjectId)
  | some oid =>
    match st.chatrooms.find? (memberQuery oid user.user_id) with
    | none =>
        (st, .error (.http 404 "Chatroom not found or you are not part of this chatroom"))
    | some _ =>
        let messages := (st.messages.filter (fun m => m.chatroom_id == chatroom_id)).take 100
        if messages.isEmpty then
          (st, .error (.http 404 "No messages found in this chatroom"))
        else
          (st, .ok (messages.map messageFields))

/-- `POST /api/v1/chatrooms/{chatroom_id}/messages`: after the membership
check, insert the user's message and then the hardcoded seller auto-reply.
`now1` and `now2` are the two `datetime.utcnow()` readings of the source. -/
def send_message (chatroom_id : String) (message : MessageBody) (user : AuthUser)
    (now1 now2 : String) (st : Store) : Store × Except Err String :=
  match parseObjectId chatroom_id with
  | none => (st, .error .invalidObjectId)
  | some oid =>
    match st.chatrooms.find? (memberQuery oid user.user_id) with
    | none =>
        (st, .error (.http 404 "Chatroom not found or you are not part of this chatroom"))
    | some chatroom =>
        let st1 := { st with
          messages := st.messages ++
            [Msg.mk chatroom_id user.user_id user.username message.content now1] }
        let st2 := { st1 with
          messages := st1.messages ++
            [Msg.mk chatroom_id chatroom.seller_id "Seller" cannedReply now2] }
        (st2, .ok "Message sent successfully")

/-- `GET /api/v1/chatrooms`: list the authenticated user's chatrooms,
decorated with seller name and avatar; chatrooms whose seller lookup misses
are dropped by the `if seller:` guard. -/
def get_user_chatrooms (user : AuthUser) (st : Store) :
    Store × Except Err (List ChatroomResponse) :=
  let chatrooms := (st.chatrooms.filter (fun c => c.user_id == user.user_id)).take 100
  if chatrooms.isEmpty then
    (st, .error (.http 404 "No chatrooms found for this user"))
  else
    (st, .ok (chatrooms.filterMap (fun chatroom =>
      match st.sellers.find? (fun s => s.seller_id == chatroom.seller_id) with
      | some seller =>
          some ⟨oidToString chatroom.id, seller.name.getD "Unknown", seller.image.getD ""⟩
      | none => none)))

/-- The invariant of claim C3: at most one chatroom per ordered
`(user_id, seller_id)` pair. -/
def ChatroomPairsUnique (st : Store) : Prop :=
  st.chatrooms.Pairwise (fun a b => ¬(a.user_id = b.user_id ∧ a.seller_id = b.seller_id))

example : parseObjectId "000000000000000000000001" = some 1 := by decide
example : parseObjectId "zz" = none := by decide
example : oidToString 1 = "000000000000000000000001" := by decide

/-! ## Helper lemmas -/

/-- `find?` returns the unique element satisfying the predicate. -/
theorem find?_of_mem_unique {α : Type} {p : α → Bool} {l : List α} {a : α}
    (ha : a ∈ l) (hpa : p a = true) (huniq : ∀ b ∈ l, p b = true → b = a) :
    l.find? p = some a := by
  induction l with
  | nil => cases ha
  | cons x xs ih =>
    by_cases hx : p x = true
    · have hxa : x = a := huniq x (List.mem_cons_self x xs) hx
      subst hxa
      exact List.find?_cons_of_pos xs hx
    · have hax : a ∈ xs := by
        rcases List.mem_cons.mp ha with h | h
        · subst h; exact absurd hpa hx
        · exact h
      rw [List.find?_cons_of_neg xs (by simpa using hx)]
      exact ih hax (fun b hb hpb => huniq b (List.mem_cons_of_mem x hb) hpb)

/-- `filterMap` has as many elements as inputs on which the function hits. -/
theorem length_filterMap_eq_length_filter {α β : Type} (f : α → Option β) (l : List α) :
    (l.filterMap f).length = (l.filter (fun a => (f a).isSome)).length := by
  induction l with
  | nil => rfl
  | cons x xs ih =>
    rw [List.filterMap_cons, List.filter_cons]
    cases hx : f x <;> simp [hx, ih]

/-- `get_messages` returns its input store in every branch. -/
theorem get_messages_fst (cid : String) (u : AuthUser) (st : Store) :
    (get_messages cid u st).1 = st := by
  unfold get_messages
  cases hp : parseObjectId cid with
  | none => rfl
  | some oid =>
    cases hf : st.chatrooms.find? (memberQuery oid u.user_id) with
    | none => simp [hf]
    | some c =>
      simp only [hf]
      split <;> rfl

/-- `send_message` never writes to the `chatrooms` collection. -/
theorem send_message_chatrooms (cid : String) (b : MessageBody) (u : AuthUser)
    (n1 n2 : String) (st : Store) :
    (send_message cid b u n1 n2 st).1.chatrooms = st.chatrooms := by
  unfold send_message
  cases hp : parseObjectId cid with
  | none => rfl
  | some oid =>
    cases hf : st.chatrooms.find? (memberQuery oid u.user_id) <;> simp [hf]

/-- `get_user_chatrooms` returns its input store in every branch. -/
theorem get_user_chatrooms_fst (u : AuthUser) (st : Store) :
    (get_user_chatrooms u st).1 = st := by
  simp only [get_user_chatrooms]
  split <;> rfl

/-! ## Claims -/

/-- C1: for every well-formed chatroom id and every requester identity,
`get_messages` and `send_message` fail with the single 404 error
"Chatroom not found or you are not part of this chatroom" whenever no stored
chatroom both carries that id and has the requester as its `user_id` or
`seller_id`; the non-existent-chatroom case and the non-member case produce
the identical error, and the store is left unchanged. -/
theorem C1_nonmember_not_found (cid : String) (oid : Nat) (u : AuthUser) (st : Store)
    (b : MessageBody) (n1 n2 : String)
    (hp : parseObjectId cid = some oid)
    (hno : ∀ c ∈ st.chatrooms, c.id = oid →
      c.user_id ≠ u.user_id ∧ c.seller_id ≠ u.user_id) :
    get_messages cid u st =
      (st, .error (.http 404 "Chatroom not found or you are not part of this chatroom")) ∧
    send_message cid b u n1 n2 st =
      (st, .error (.http 404 "Chatroom not found or you are not part of this chatroom")) := by
  have hfind : st.chatrooms.find? (memberQuery oid u.user_id) = none := by
    rw [List.find?_eq_none]
    intro c hc
    simp only [memberQuery, Bool.and_eq_true, Bool.or_eq_true, beq_iff_eq, not_and, not_or]
    intro hid
    exact hno c hc hid
  exact ⟨by simp [get_messages, hp, hfind], by simp [send_message, hp, hfind]⟩

/-- C1 witness: requester "eve" is neither side of the sole stored chatroom,
so both operations fail with the 404 membership error. -/
theorem C1_nonmember_not_found_witness :
    get_messages "000000000000000000000000" ⟨"eve", "Eve"⟩
        ⟨[⟨0, "u1", "s1", "t0"⟩], [], [], 1⟩ =
      (⟨[⟨0, "u1", "s1", "t0"⟩], [], [], 1⟩,
        .error (.http 404 "Chatroom not found or you are not part of this chatroom")) ∧
    send_message "000000000000000000000000" ⟨"u1", "Alice", "hi", "t9"⟩ ⟨"eve", "Eve"⟩
        "t1" "t2" ⟨[⟨0, "u1", "s1", "t0"⟩], [], [], 1⟩ =
      (⟨[⟨0, "u1", "s1", "t0"⟩], [], [], 1⟩,
        .error (.http 404 "Chatroom not found or you are not part of this chatroom")) :=
  C1_nonmember_not_found "000000000000000000000000" 0 ⟨"eve", "Eve"⟩
    ⟨[⟨0, "u1", "s1", "t0"⟩], [], [], 1⟩ ⟨"u1", "Alice", "hi", "t9"⟩ "t1" "t2"
    (by decide) (by decide)

/-- C2: a successful `send_message` to a chatroom `c` appends exactly two
messages to the store, in order — first the requester's message carrying the
authenticated `user_id`/`username`, the given content (the empty string
included) and the first server-clock reading, then the auto-reply authored
by the chatroom's `seller_id` with username "Seller", the fixed canned
content and the second clock reading — and changes nothing else. -/
theorem C2_send_appends_exactly_two (cid : String) (u : AuthUser) (st : Store)
    (c : Chatroom) (b : MessageBody) (n1 n2 : String)
    (hp : parseObjectId cid = some c.id)
    (hc : c ∈ st.chatrooms)
    (hm : c.user_id = u.user_id ∨ c.seller_id = u.user_id)
    (huniq : ∀ c2 ∈ st.chatrooms, c2.id = c.id → c2 = c) :
    send_message cid b u n1 n2 st =
      ({ st with messages := st.messages ++
          [Msg.mk cid u.user_id u.username b.content n1,
           Msg.mk cid c.seller_id "Seller" cannedReply n2] },
        .ok "Message sent successfully") := by
  have hfind : st.chatrooms.find? (memberQuery c.id u.user_id) = some c := by
    apply find?_of_mem_unique hc
    · simp only [memberQuery, Bool.and_eq_true, Bool.or_eq_true, beq_iff_eq]
      exact ⟨trivial, hm⟩
    · intro c2 hc2 hpc2
      simp only [memberQuery, Bool.and_eq_true, Bool.or_eq_true, beq_iff_eq] at hpc2
      exact huniq c2 hc2 hpc2.1
  simp [send_message, hp, hfind]

/-- C2 witness: member "u1" sends the empty string to a concrete chatroom;
exactly the two expected messages are appended. -/
theorem C2_send_appends_exactly_two_witness :
    send_message "000000000000000000000000" ⟨"spoof", "Spoof", "", "t9"⟩
        ⟨"u1", "Alice"⟩ "t1" "t2" ⟨[⟨0, "u1", "s1", "t0"⟩], [], [], 1⟩ =
      (⟨[⟨0, "u1", "s1", "t0"⟩],
        [⟨"000000000000000000000000", "u1", "Alice", "", "t1"⟩,
         ⟨"000000000000000000000000", "s1", "Seller", cannedReply, "t2"⟩], [], 1⟩,
        .ok "Message sent successfully") :=
  C2_send_appends_exactly_two "000000000000000000000000" ⟨"u1", "Alice"⟩
    ⟨[⟨0, "u1", "s1", "t0"⟩], [], [], 1⟩ ⟨0, "u1", "s1", "t0"⟩
    ⟨"spoof", "Spoof", "", "t9"⟩ "t1" "t2"
    (by decide) (by decide) (Or.inl rfl) (by decide)

/-- C3: starting from a store with at most one chatroom per ordered
`(user_id, seller_id)` pair, every operation preserves that invariant; the
first `create_chatroom(u, s)` with `u ≠ s` succeeds and inserts the new
chatroom; a later call with the same ordered pair fails with the 400
conflict error and inserts nothing; and the duplicate check is an exact
match on both fields, so only an exact `(u, s)` chatroom blocks creation —
a reverse `(s, u)` chatroom does not. -/
theorem C3_pair_uniqueness (u : AuthUser) (s now cid n1 n2 : String) (st : Store)
    (b : MessageBody) (hinv : ChatroomPairsUnique st) :
    (u.user_id ≠ s →
      (∀ c ∈ st.chatrooms, ¬(c.user_id = u.user_id ∧ c.seller_id = s)) →
      create_chatroom s u now st =
        ({ st with
            chatrooms := st.chatrooms ++ [⟨st.nextId, u.user_id, s, now⟩],
            nextId := st.nextId + 1 },
          .ok (oidToString st.nextId))) ∧
    ((∃ c ∈ st.chatrooms, c.user_id = u.user_id ∧ c.seller_id = s) →
      u.user_id ≠ s →
      create_chatroom s u now st =
        (st, .error (.http 400 "Chatroom already exists between this user and seller."))) ∧
    ChatroomPairsUnique (create_chatroom s u now st).1 ∧
    ChatroomPairsUnique (send_message cid b u n1 n2 st).1 ∧
    ChatroomPairsUnique (get_messages cid u st).1 ∧
    ChatroomPairsUnique (get_user_chatrooms u st).1 := by
  refine ⟨?_, ?_, ?_, ?_, ?_, ?_⟩
  · intro hne hno
    have hfind :
        st.chatrooms.find? (fun c => c.user_id == u.user_id && c.seller_id == s) = none := by
      rw [List.find?_eq_none]
      intro c hc
      simp only [Bool.and_eq_true, beq_iff_eq]
      exact hno c hc
    simp [create_chatroom, hne, hfind]
  · rintro ⟨c, hc, h1, h2⟩ hne
    have hsome :
        (st.chatrooms.find? (fun c => c.user_id == u.user_id && c.seller_id == s)).isSome := by
      rw [List.find?_isSome]
      exact ⟨c, hc, by simp [h1, h2]⟩
    cases hf : st.chatrooms.find? (fun c => c.user_id == u.user_id && c.seller_id == s) with
    | none => rw [hf] at hsome; simp at hsome
    | some c2 => simp [create_chatroom, hne, hf]
  · unfold create_chatroom
    by_cases hq : (u.user_id == s) = true
    · simpa [hq] using hinv
    · simp only [hq, Bool.false_eq_true, if_false]
      cases hf : st.chatrooms.find? (fun c => c.user_id == u.user_id && c.seller_id == s) with
      | some c2 => simpa [hf] using hinv
      | none =>
        simp only [hf]
        unfold ChatroomPairsUnique at hinv ⊢
        simp only [List.pairwise_append, List.pairwise_singleton]
        refine ⟨hinv, trivial, ?_⟩
        intro a ha c2 hc2
        have := List.find?_eq_none.mp hf a ha
        simp only [Bool.and_eq_true, beq_iff_eq] at this
        simp only [List.mem_singleton] at hc2
        subst hc2
        exact this
  · unfold ChatroomPairsUnique
    rw [send_message_chatrooms]
    exact hinv
  · unfold ChatroomPairsUnique
    rw [get_messages_fst]
    exact hinv
  · unfold ChatroomPairsUnique
    rw [get_user_chatrooms_fst]
    exact hinv

/-- C3 witness: in an empty store, creating a chatroom between "u1" and
"s1" succeeds and inserts exactly that chatroom. -/
theorem C3_pair_uniqueness_witness :
    create_chatroom "s1" ⟨"u1", "Alice"⟩ "t0" ⟨[], [], [], 0⟩ =
      (⟨[⟨0, "u1", "s1", "t0"⟩], [], [], 1⟩, .ok (oidToString 0)) :=
  (C3_pair_uniqueness ⟨"u1", "Alice"⟩ "s1" "t0" "c" "t1" "t2" ⟨[], [], [], 0⟩
    ⟨"a", "b", "c", "d"⟩ List.Pairwise.nil).1 (by decide) (by decide)

/-- C4: whenever the authenticated requester's id equals the target
`seller_id`, `create_chatroom` fails with the 400 self-chat error and the
store is unchanged. -/
theorem C4_self_chat_rejected (u : AuthUser) (s now : String) (st : Store)
    (h : u.user_id = s) :
    create_chatroom s u now st =
      (st, .error (.http 400 "User cannot create a chatroom with themselves.")) := by
  simp [create_chatroom, h]

/-- C4 witness at a concrete requester equal to the seller id. -/
theorem C4_self_chat_rejected_witness :
    create_chatroom "u1" ⟨"u1", "Alice"⟩ "t0" ⟨[], [], [], 0⟩ =
      (⟨[], [], [], 0⟩,
        .error (.http 400 "User cannot create a chatroom with themselves.")) :=
  C4_self_chat_rejected ⟨"u1", "Alice"⟩ "u1" "t0" ⟨[], [], [], 0⟩ rfl

/-- C5: for a valid chatroom and a member requester, `get_messages` returns
at most 100 messages, each of which is one of the stored messages of that
chatroom projected to the four fields `user_id`, `username`, `content`,
`timestamp`; and when the chatroom holds zero messages it fails with the
404 "No messages found in this chatroom" error instead of returning an
empty list. -/
theorem C5_list_messages_bounded (cid : String) (u : AuthUser) (st : Store)
    (c : Chatroom)
    (hp : parseObjectId cid = some c.id) (hc : c ∈ st.chatrooms)
    (hm : c.user_id = u.user_id ∨ c.seller_id = u.user_id) :
    (st.messages.filter (fun m => m.chatroom_id == cid) = [] →
      get_messages cid u st =
        (st, .error (.http 404 "No messages found in this chatroom"))) ∧
    (∀ out, (get_messages cid u st).2 = .ok out →
      out.length ≤ 100 ∧
      out = ((st.messages.filter (fun m => m.chatroom_id == cid)).take 100).map
        messageFields ∧
      ∀ r ∈ out, ∃ m ∈ st.messages, m.chatroom_id = cid ∧ r = messageFields m) := by
  have hsome : (st.chatrooms.find? (memberQuery c.id u.user_id)).isSome := by
    rw [List.find?_isSome]
    refine ⟨c, hc, ?_⟩
    simp only [memberQuery, Bool.and_eq_true, Bool.or_eq_true, beq_iff_eq]
    exact ⟨trivial, hm⟩
  obtain ⟨c2, hf⟩ := Option.isSome_iff_exists.mp hsome
  constructor
  · intro hemp
    simp [get_messages, hp, hf, hemp]
  · intro out hout
    by_cases hemp : (st.messages.filter (fun m => m.chatroom_id == cid)).take 100 = []
    · simp [get_messages, hp, hf, hemp] at hout
    · have hgm : get_messages cid u st =
          (st, .ok (((st.messages.filter (fun m => m.chatroom_id == cid)).take 100).map
            messageFields)) := by
        simp only [get_messages, hp, hf]
        rw [if_neg (by simpa [List.isEmpty_iff] using hemp)]
      rw [hgm] at hout
      simp only [Except.ok.injEq] at hout
      subst hout
      refine ⟨?_, rfl, ?_⟩
      · rw [List.length_map, List.length_take]
        exact min_le_left _ _
      · intro r hr
        rw [List.mem_map] at hr
        obtain ⟨m, hmem, hrm⟩ := hr
        have hmem2 := List.mem_of_mem_take hmem
        rw [List.mem_filter] at hmem2
        exact ⟨m, hmem2.1, by simpa using hmem2.2, hrm.symm⟩

/-- C5 witness: the chatroom is valid and "u1" is its member, but the store
holds no messages, so `get_messages` fails with the 404 error. -/
theorem C5_list_messages_bounded_witness :
    get_messages "000000000000000000000000" ⟨"u1", "Alice"⟩
        ⟨[⟨0, "u1", "s1", "t0"⟩], [], [], 1⟩ =
      (⟨[⟨0, "u1", "s1", "t0"⟩], [], [], 1⟩,
        .error (.http 404 "No messages found in this chatroom")) :=
  (C5_list_messages_bounded "000000000000000000000000" ⟨"u1", "Alice"⟩
    ⟨[⟨0, "u1", "s1", "t0"⟩], [], [], 1⟩ ⟨0, "u1", "s1", "t0"⟩
    (by decide) (by decide) (Or.inl rfl)).1 (by decide)

/-- C6: when `get_user_chatrooms` fetches a non-empty list it succeeds, and
its output is governed by the seller lookup: every returned entry stems from
a chatroom of the requester whose Seller record exists, with `seller_name`
defaulting to "Unknown" and `seller_avatar` to the empty string when the
record lacks `name`/`image`; every fetched chatroom whose Seller record
exists — fields present or not — is included; and the output has exactly
one entry per fetched chatroom whose seller lookup hits, so a chatroom
whose `seller_id` has no Seller record is silently omitted, neither an
error nor a placeholder. -/
theorem C6_seller_lookup_drops_and_defaults (u : AuthUser) (st : Store)
    (hne : (st.chatrooms.filter (fun c => c.user_id == u.user_id)).take 100 ≠ []) :
    ∃ out, get_user_chatrooms u st = (st, .ok out) ∧
      (∀ r ∈ out, ∃ c ∈ st.chatrooms, c.user_id = u.user_id ∧
        ∃ sl, st.sellers.find? (fun s => s.seller_id == c.seller_id) = some sl ∧
          r = ⟨oidToString c.id, sl.name.getD "Unknown", sl.image.getD ""⟩) ∧
      (∀ c ∈ (st.chatrooms.filter (fun c => c.user_id == u.user_id)).take 100,
        ∀ sl, st.sellers.find? (fun s => s.seller_id == c.seller_id) = some sl →
          (⟨oidToString c.id, sl.name.getD "Unknown", sl.image.getD ""⟩ :
            ChatroomResponse) ∈ out) ∧
      out.length =
        (((st.chatrooms.filter (fun c => c.user_id == u.user_id)).take 100).filter
          (fun c =>
            (st.sellers.find? (fun s => s.seller_id == c.seller_id)).isSome)).length := by
  have hgu : get_user_chatrooms u st =
      (st, .ok (((st.chatrooms.filter (fun c => c.user_id == u.user_id)).take 100).filterMap
        (fun chatroom =>
          match st.sellers.find? (fun s => s.seller_id == chatroom.seller_id) with
          | some seller =>
              some ⟨oidToString chatroom.id, seller.name.getD "Unknown",
                seller.image.getD ""⟩
          | none => none))) := by
    simp only [get_user_chatrooms]
    rw [if_neg (by simpa [List.isEmpty_iff] using hne)]
  refine ⟨_, hgu, ?_, ?_, ?_⟩
  · intro r hr
    rw [List.mem_filterMap] at hr
    obtain ⟨c, hcf, hphi⟩ := hr
    have hcf2 := List.mem_of_mem_take hcf
    rw [List.mem_filter] at hcf2
    refine ⟨c, hcf2.1, by simpa using hcf2.2, ?_⟩
    cases hfs : st.sellers.find? (fun s => s.seller_id == c.seller_id) with
    | none => rw [hfs] at hphi; simp at hphi
    | some sl =>
      rw [hfs] at hphi
      simp only [Option.some.injEq] at hphi
      exact ⟨sl, rfl, hphi.symm⟩
  · intro c hcf sl hsl
    rw [List.mem_filterMap]
    exact ⟨c, hcf, by rw [hsl]⟩
  · rw [length_filterMap_eq_length_filter]
    congr 1
    apply List.filter_congr
    intro c hcf
    cases st.sellers.find? (fun s => s.seller_id == c.seller_id) <;> rfl

/-- C6 witness: of two chatrooms of "u1", the one whose seller "s1" has a
record with absent `name`/`image` is listed with the defaults, while the one
whose seller "s2" has no record is silently dropped. -/
theorem C6_seller_lookup_drops_and_defaults_witness :
    get_user_chatrooms ⟨"u1", "Alice"⟩
        ⟨[⟨0, "u1", "s1", "t0"⟩, ⟨1, "u1", "s2", "t1"⟩], [],
          [⟨"s1", none, none⟩], 2⟩ =
      (⟨[⟨0, "u1", "s1", "t0"⟩, ⟨1, "u1", "s2", "t1"⟩], [],
          [⟨"s1", none, none⟩], 2⟩,
        .ok [⟨oidToString 0, "Unknown", ""⟩]) := by
  obtain ⟨out, hgu, _, hin, hlen⟩ :=
    C6_seller_lookup_drops_and_defaults ⟨"u1", "Alice"⟩
      ⟨[⟨0, "u1", "s1", "t0"⟩, ⟨1, "u1", "s2", "t1"⟩], [], [⟨"s1", none, none⟩], 2⟩
      (by decide)
  have hlen1 : out.length = 1 := by rw [hlen]; rfl
  obtain ⟨a, rfl⟩ := List.length_eq_one.mp hlen1
  have hrow : (⟨oidToString 0, "Unknown", ""⟩ : ChatroomResponse) ∈ [a] :=
    hin ⟨0, "u1", "s1", "t0"⟩ (by decide) ⟨"s1", none, none⟩ (by decide)
  rw [List.mem_singleton] at hrow
  rw [hgu, ← hrow]

/-- C7: `get_user_chatrooms` fails with the 404 "No chatrooms found" error
when no stored chatroom has the requester as its `user_id`; on success it
returns at most 100 entries, and every returned entry stems from a stored
chatroom whose `user_id` equals the requester — chatrooms where the
requester appears only as `seller_id` are never surfaced. -/
theorem C7_user_chatrooms_only_user_side (u : AuthUser) (st : Store) :
    (st.chatrooms.filter (fun c => c.user_id == u.user_id) = [] →
      get_user_chatrooms u st =
        (st, .error (.http 404 "No chatrooms found for this user"))) ∧
    (∀ out, (get_user_chatrooms u st).2 = .ok out →
      out.length ≤ 100 ∧
      ∀ r ∈ out, ∃ c ∈ st.chatrooms, c.user_id = u.user_id ∧
        r.chatroom_id = oidToString c.id) := by
  constructor
  · intro hemp
    simp [get_user_chatrooms, hemp]
  · intro out hout
    by_cases hemp : (st.chatrooms.filter (fun c => c.user_id == u.user_id)).take 100 = []
    · simp [get_user_chatrooms, hemp] at hout
    · have hgu : get_user_chatrooms u st =
          (st, .ok (((st.chatrooms.filter (fun c => c.user_id == u.user_id)).take 100).filterMap
            (fun chatroom =>
              match st.sellers.find? (fun s => s.seller_id == chatroom.seller_id) with
              | some seller =>
                  some ⟨oidToString chatroom.id, seller.name.getD "Unknown",
                    seller.image.getD ""⟩
              | none => none))) := by
        simp only [get_user_chatrooms]
        rw [if_neg (by simpa [List.isEmpty_iff] using hemp)]
      rw [hgu] at hout
      simp only [Except.ok.injEq] at hout
      subst hout
      constructor
      · calc (List.filterMap _ _).length
            ≤ ((st.chatrooms.filter (fun c => c.user_id == u.user_id)).take 100).length :=
              List.length_filterMap_le _ _
          _ ≤ 100 := by rw [List.length_take]; exact min_le_left _ _
      · intro r hr
        rw [List.mem_filterMap] at hr
        obtain ⟨cr, hcr, hfcr⟩ := hr
        have hcr2 := List.mem_of_mem_take hcr
        rw [List.mem_filter] at hcr2
        refine ⟨cr, hcr2.1, by simpa using hcr2.2, ?_⟩
        cases hfs : st.sellers.find? (fun s => s.seller_id == cr.seller_id) with
        | none => rw [hfs] at hfcr; simp at hfcr
        | some seller =>
          rw [hfs] at hfcr
          simp only [Option.some.injEq] at hfcr
          rw [← hfcr]

/-- C7 witness: "u1" appears only as `seller_id` of the sole chatroom, so
the listing fails with the 404 error. -/
theorem C7_user_chatrooms_only_user_side_witness :
    get_user_chatrooms ⟨"u1", "Alice"⟩ ⟨[⟨0, "x", "u1", "t0"⟩], [], [], 1⟩ =
      (⟨[⟨0, "x", "u1", "t0"⟩], [], [], 1⟩,
        .error (.http 404 "No chatrooms found for this user")) :=
  (C7_user_chatrooms_only_user_side ⟨"u1", "Alice"⟩
    ⟨[⟨0, "x", "u1", "t0"⟩], [], [], 1⟩).1 (by decide)

/-- C9: `send_message` ignores the `user_id`, `username` and `timestamp`
fields of the request body: two requests whose bodies agree on `content`
produce identical store states and results; and whenever the call appends
two messages, the first one carries the authenticated identity's `user_id`
and `username`, the server clock reading, the path chatroom id and the body
content. -/
theorem C9_request_body_ignored (cid : String) (u : AuthUser) (n1 n2 : String)
    (st : Store) (b1 b2 : MessageBody) (hcontent : b1.content = b2.content) :
    send_message cid b1 u n1 n2 st = send_message cid b2 u n1 n2 st ∧
    (∀ m1 m2, (send_message cid b1 u n1 n2 st).1.messages = st.messages ++ [m1, m2] →
      m1.user_id = u.user_id ∧ m1.username = u.username ∧ m1.timestamp = n1 ∧
      m1.chatroom_id = cid ∧ m1.content = b1.content) := by
  constructor
  · unfold send_message
    rw [hcontent]
  · intro m1 m2 hmsg
    cases hp : parseObjectId cid with
    | none =>
      have hs : (send_message cid b1 u n1 n2 st).1 = st := by
        simp [send_message, hp]
      rw [hs] at hmsg
      simp only [List.self_eq_append_right] at hmsg
      simp at hmsg
    | some oid =>
      cases hfq : st.chatrooms.find? (memberQuery oid u.user_id) with
      | none =>
        have hs : (send_message cid b1 u n1 n2 st).1 = st := by
          simp [send_message, hp, hfq]
        rw [hs] at hmsg
        simp only [List.self_eq_append_right] at hmsg
        simp at hmsg
      | some c =>
        have hs : (send_message cid b1 u n1 n2 st).1.messages =
            st.messages ++ [Msg.mk cid u.user_id u.username b1.content n1,
              Msg.mk cid c.seller_id "Seller" cannedReply n2] := by
          simp [send_message, hp, hfq]
        rw [hs] at hmsg
        simp only [List.append_cancel_left_eq, List.cons.injEq] at hmsg
        obtain ⟨h1, _⟩ := hmsg
        rw [← h1]
        exact ⟨rfl, rfl, rfl, rfl, rfl⟩

/-- C9 witness: two bodies with spoofed author fields but equal content
yield identical outcomes. -/
theorem C9_request_body_ignored_witness :
    send_message "000000000000000000000000" ⟨"fakeuser", "FakeName", "hi", "faketime"⟩
        ⟨"u1", "Alice"⟩ "t1" "t2" ⟨[⟨0, "u1", "s1", "t0"⟩], [], [], 1⟩ =
      send_message "000000000000000000000000" ⟨"otheruser", "OtherName", "hi", "othertime"⟩
        ⟨"u1", "Alice"⟩ "t1" "t2" ⟨[⟨0, "u1", "s1", "t0"⟩], [], [], 1⟩ :=
  (C9_request_body_ignored "000000000000000000000000" ⟨"u1", "Alice"⟩ "t1" "t2"
    ⟨[⟨0, "u1", "s1", "t0"⟩], [], [], 1⟩ ⟨"fakeuser", "FakeName", "hi", "faketime"⟩
    ⟨"otheruser", "OtherName", "hi", "othertime"⟩ rfl).1

/-- C8: `list_messages` performs no writes — the store it returns is the one
it was given — and a second call on that store returns exactly the same
store-and-result pair as the first. -/
theorem C8_list_messages_pure (cid : String) (u : AuthUser) (st : Store) :
    (get_messages cid u st).1 = st ∧
    get_messages cid u (get_messages cid u st).1 = get_messages cid u st := by
  exact ⟨get_messages_fst cid u st, by rw [get_messages_fst]⟩

/-- C10: on a `chatroom_id` string that is not a well-formed ObjectId,
`get_messages` and `send_message` fail with the unclassified `InvalidId`
error regardless of the store's contents; any `HTTPException` (404 included)
from either handler implies the id parsed; and any string that is not 24
hexadecimal characters fails to parse. -/
theorem C10_malformed_id (cid : String) (u : AuthUser) (st : Store)
    (b : MessageBody) (n1 n2 : String) :
    (parseObjectId cid = none →
      get_messages cid u st = (st, .error .invalidObjectId) ∧
      send_message cid b u n1 n2 st = (st, .error .invalidObjectId)) ∧
    (∀ code detail, (get_messages cid u st).2 = .error (.http code detail) →
      (parseObjectId cid).isSome) ∧
    (∀ code detail, (send_message cid b u n1 n2 st).2 = .error (.http code detail) →
      (parseObjectId cid).isSome) ∧
    (¬(cid.length = 24 ∧ ∀ ch ∈ cid.data, isHexDigit ch) → parseObjectId cid = none) := by
  refine ⟨fun hnone => ⟨by simp [get_messages, hnone], by simp [send_message, hnone]⟩,
    ?_, ?_, ?_⟩
  · intro code detail hget
    cases hp : parseObjectId cid with
    | none => rw [get_messages, hp] at hget; simp at hget
    | some oid => simp
  · intro code detail hsend
    cases hp : parseObjectId cid with
    | none => rw [send_message, hp] at hsend; simp at hsend
    | some oid => simp
  · intro hbad
    rw [parseObjectId]
    rw [if_neg]
    intro hcond
    rcases Bool.and_eq_true _ _ |>.mp hcond with ⟨hlen, hall⟩
    exact hbad ⟨by simpa using hlen, by simpa [List.all_eq_true] using hall⟩

/-- C10 witness: the malformed id "not-an-objectid" makes both handlers fail
with the unclassified ObjectId error. -/
theorem C10_malformed_id_witness :
    get_messages "not-an-objectid" ⟨"u1", "Alice"⟩ ⟨[], [], [], 0⟩ =
      (⟨[], [], [], 0⟩, .error .invalidObjectId) ∧
    send_message "not-an-objectid" ⟨"u1", "Alice", "hi", "t9"⟩ ⟨"u1", "Alice"⟩
        "t1" "t2" ⟨[], [], [], 0⟩ =
      (⟨[], [], [], 0⟩, .error .invalidObjectId) :=
  (C10_malformed_id "not-an-objectid" ⟨"u1", "Alice"⟩ ⟨[], [], [], 0⟩
    ⟨"u1", "Alice", "hi", "t9"⟩ "t1" "t2").1 (by decide)
